import Mathlib

/-!
Verification of the Evaluation Store & Aggregation Engine of the
Hedera-Africa-Hackathon-Evaluation repository.

The development shallowly embeds the relevant source code:

* `services/dbService.ts` — the localStorage-backed record repository
  (pure snapshot transforms suffixed `T`, stateful operations suffixed `S`
  threading an explicit `StoreState`);
* the alternative `dbService.ts` variant with a timestamped read cache
  (namespace `P2`);
* `Backend/server.js` — the evaluations route (JS numeric comparison
  semantics, including `NaN`) and the leaderboard query;
* the pure helpers of `Frontend/lib/api.js`.

Machine integers/floats: ratings are modelled as `ℚ`; where JS `NaN`
semantics decide control flow (the backend range validation) values are
modelled as `JSNum`, whose comparisons mirror IEEE behaviour (`NaN`
compares false with everything).  JSON storage is modelled at the parse
level: `StorageContent` distinguishes an absent item, an unparseable
item, and a parsed object whose four collection keys are each optionally
present (`RawDB`); a key that is absent-or-falsy is `none`.
-/

/-- A project record (frontend `types.ts` shape: identity, name, one track,
descriptive fields). -/
structure Project where
  id : String
  name : String
  description : String
  track : String
  trl : String
deriving DecidableEq, Repr

/-- A judge record: identity, name, and the set of tracks the judge may score. -/
structure Judge where
  id : String
  name : String
  tracks : List String
deriving DecidableEq, Repr

/-- A scoring criterion: identity, label, and weight. -/
structure Criterion where
  id : String
  name : String
  weight : ℚ
deriving DecidableEq, Repr

/-- One judge's rating of one project against one criterion. -/
structure Score where
  id : String
  projectId : String
  judgeId : String
  criterionId : String
  rating : ℚ
deriving DecidableEq, Repr

/-- The whole-database snapshot (`DBState` in `services/dbService.ts`). -/
structure DBState where
  projects : List Project
  judges : List Judge
  criteria : List Criterion
  scores : List Score
deriving DecidableEq, Repr

/-- The documented empty-but-valid snapshot. -/
def emptyDB : DBState := ⟨[], [], [], []⟩

/-! ## Pure snapshot transforms of `services/dbService.ts`

Each public operation of the repository reads the snapshot, applies a pure
transformation, and writes the result back.  The `T`-suffixed definitions
are those pure transformations, translated clause by clause from the
source. -/

/-- `createProjects`: mint fresh ids `p_${Date.now()}_${index}` and append
(`Date.now()` is passed in as `now`). -/
def mintProjectIds (now : Nat) (newProjects : List Project) : List Project :=
  newProjects.enum.map (fun ip => { ip.2 with id := "p_" ++ toString now ++ "_" ++ toString ip.1 })

/-- Pure transform of `createProjects` (dbService.ts, lines 78–88). -/
def createProjectsT (now : Nat) (db : DBState) (newProjects : List Project) :
    DBState × List Project :=
  let projectsWithIds := mintProjectIds now newProjects
  ({ db with projects := db.projects ++ projectsWithIds }, projectsWithIds)

/-- Pure transform of `updateProject` (lines 90–98): replace the record at the
first index whose id matches; the boolean records whether a write happened. -/
def updateProjectT (db : DBState) (updatedProject : Project) : DBState × Bool :=
  match db.projects.findIdx? (fun p => p.id = updatedProject.id) with
  | some i => ({ db with projects := db.projects.set i updatedProject }, true)
  | none => (db, false)

/-- Pure transform of `deleteProject` (lines 100–106): remove the project and
cascade-delete its scores in the same snapshot. -/
def deleteProjectT (db : DBState) (projectId : String) : DBState :=
  { db with projects := db.projects.filter (fun p => p.id ≠ projectId),
            scores := db.scores.filter (fun s => s.projectId ≠ projectId) }

/-- Pure transform of `createJudge` (lines 109–115). -/
def createJudgeT (now : Nat) (db : DBState) (newJudgeData : Judge) : DBState × Judge :=
  let newJudge := { newJudgeData with id := "j_" ++ toString now }
  ({ db with judges := db.judges ++ [newJudge] }, newJudge)

/-- Pure transform of `updateJudge` (lines 117–125). -/
def updateJudgeT (db : DBState) (updatedJudge : Judge) : DBState × Bool :=
  match db.judges.findIdx? (fun j => j.id = updatedJudge.id) with
  | some i => ({ db with judges := db.judges.set i updatedJudge }, true)
  | none => (db, false)

/-- Pure transform of `deleteJudge` (lines 127–133): remove the judge and
cascade-delete their scores. -/
def deleteJudgeT (db : DBState) (judgeId : String) : DBState :=
  { db with judges := db.judges.filter (fun j => j.id ≠ judgeId),
            scores := db.scores.filter (fun s => s.judgeId ≠ judgeId) }

/-- Pure transform of `createCriterion` (lines 136–142). -/
def createCriterionT (now : Nat) (db : DBState) (newCriterionData : Criterion) :
    DBState × Criterion :=
  let newCriterion := { newCriterionData with id := "c_" ++ toString now }
  ({ db with criteria := db.criteria ++ [newCriterion] }, newCriterion)

/-- Pure transform of `updateCriterion` (lines 144–152). -/
def updateCriterionT (db : DBState) (updatedCriterion : Criterion) : DBState × Bool :=
  match db.criteria.findIdx? (fun c => c.id = updatedCriterion.id) with
  | some i => ({ db with criteria := db.criteria.set i updatedCriterion }, true)
  | none => (db, false)

/-- Pure transform of `deleteCriterion` (lines 154–161): remove the criterion
only; the scores collection is deliberately left untouched. -/
def deleteCriterionT (db : DBState) (criterionId : String) : DBState :=
  { db with criteria := db.criteria.filter (fun c => c.id ≠ criterionId) }

/-- The list-level upsert of `createOrUpdateScore` (lines 165–175): replace the
record at the first index whose `id` matches, else append. -/
def upsertById (scores : List Score) (score : Score) : List Score :=
  match scores.findIdx? (fun s => s.id = score.id) with
  | some i => scores.set i score
  | none => scores ++ [score]

/-- Pure transform of `createOrUpdateScore` (lines 165–175). -/
def createOrUpdateScoreT (db : DBState) (score : Score) : DBState :=
  { db with scores := upsertById db.scores score }

/-- Pure transform of `deleteScore` (lines 177–182). -/
def deleteScoreT (db : DBState) (scoreId : String) : DBState :=
  { db with scores := db.scores.filter (fun s => s.id ≠ scoreId) }

/-- The assignment resolver (`App.tsx`):
`projects.filter(p => currentJudge.tracks.includes(p.track))`. -/
def assignedProjects (judge : Judge) (projects : List Project) : List Project :=
  projects.filter (fun p => judge.tracks.contains p.track)

/-! ## Storage model

`localStorage` is modelled at the JSON-parse level.  `RawDB` is a parsed
object in which each of the four collection keys is optionally present
(`none` = absent or falsy); `StorageContent` distinguishes a missing item,
an unreadable item (a `getItem`/`JSON.parse` throw), and a parsed object. -/

/-- A parsed storage object; each key may be absent. -/
structure RawDB where
  projectsKey : Option (List Project)
  judgesKey : Option (List Judge)
  criteriaKey : Option (List Criterion)
  scoresKey : Option (List Score)
deriving DecidableEq, Repr

/-- `JSON.stringify` of a snapshot parses back to an object with all four keys. -/
def dbToRaw (db : DBState) : RawDB :=
  ⟨some db.projects, some db.judges, some db.criteria, some db.scores⟩

/-- The validity check of `readDB`
(`db.projects && db.judges && db.criteria && db.scores`): the snapshot is
usable exactly when all four keys are present. -/
def RawDB.complete? (raw : RawDB) : Option DBState :=
  match raw with
  | ⟨some p, some j, some c, some s⟩ => some ⟨p, j, c, s⟩
  | _ => none

/-- What `localStorage.getItem(DB_KEY)` yields, after JSON parsing. -/
inductive StorageContent where
  | empty
  | unreadable
  | parsed (raw : RawDB)
deriving DecidableEq, Repr

/-- The mutable module state of `services/dbService.ts`: the persisted blob,
whether `localStorage.setItem` currently throws (quota/unavailable), and the
in-memory cache `dbCache`. -/
structure StoreState where
  storage : StorageContent
  storageWriteFails : Bool
  dbCache : Option DBState
deriving DecidableEq, Repr

/-- `writeDB` (dbService.ts, lines 19–26): `setItem` then update the cache; a
`setItem` throw is caught and only logged, leaving both the stored blob and
the cache unchanged. -/
def writeDB (σ : StoreState) (db : DBState) : StoreState :=
  if σ.storageWriteFails then σ
  else { σ with storage := .parsed (dbToRaw db), dbCache := some db }

/-- `readDB` (dbService.ts, lines 28–60): serve from cache when primed;
otherwise parse the stored blob, accept it only if all four keys are present
(priming the cache), and on a missing, unreadable, or key-incomplete blob
re-initialize with the bundled mock snapshot (passed in as `mock`), which is
also written back. -/
def readDB (mock : DBState) (σ : StoreState) : DBState × StoreState :=
  match σ.dbCache with
  | some db => (db, σ)
  | none =>
    match σ.storage with
    | .parsed raw =>
      match raw.complete? with
      | some db => (db, { σ with dbCache := some db })
      | none => (mock, writeDB σ mock)
    | _ => (mock, writeDB σ mock)

/-! Stateful operations: each public function of `services/dbService.ts`
reads the snapshot, applies its pure transform, writes back, and resolves
with its result value.  `updateProject`/`updateJudge`/`updateCriterion` only
write when the id was found, but resolve with the given entity either way. -/

/-- Stateful `createProjects`. -/
def createProjectsS (mock : DBState) (σ : StoreState) (now : Nat)
    (newProjects : List Project) : StoreState × List Project :=
  let r := readDB mock σ
  let t := createProjectsT now r.1 newProjects
  (writeDB r.2 t.1, t.2)

/-- Stateful `updateProject`. -/
def updateProjectS (mock : DBState) (σ : StoreState) (updatedProject : Project) :
    StoreState × Project :=
  let r := readDB mock σ
  let t := updateProjectT r.1 updatedProject
  (if t.2 then writeDB r.2 t.1 else r.2, updatedProject)

/-- Stateful `deleteProject`; the boolean result is the `{ success: true }`
payload. -/
def deleteProjectS (mock : DBState) (σ : StoreState) (projectId : String) :
    StoreState × Bool :=
  let r := readDB mock σ
  (writeDB r.2 (deleteProjectT r.1 projectId), true)

/-- Stateful `createJudge`. -/
def createJudgeS (mock : DBState) (σ : StoreState) (now : Nat) (newJudgeData : Judge) :
    StoreState × Judge :=
  let r := readDB mock σ
  let t := createJudgeT now r.1 newJudgeData
  (writeDB r.2 t.1, t.2)

/-- Stateful `updateJudge`. -/
def updateJudgeS (mock : DBState) (σ : StoreState) (updatedJudge : Judge) :
    StoreState × Judge :=
  let r := readDB mock σ
  let t := updateJudgeT r.1 updatedJudge
  (if t.2 then writeDB r.2 t.1 else r.2, updatedJudge)

/-- Stateful `deleteJudge`. -/
def deleteJudgeS (mock : DBState) (σ : StoreState) (judgeId : String) :
    StoreState × Bool :=
  let r := readDB mock σ
  (writeDB r.2 (deleteJudgeT r.1 judgeId), true)

/-- Stateful `createCriterion`. -/
def createCriterionS (mock : DBState) (σ : StoreState) (now : Nat)
    (newCriterionData : Criterion) : StoreState × Criterion :=
  let r := readDB mock σ
  let t := createCriterionT now r.1 newCriterionData
  (writeDB r.2 t.1, t.2)

/-- Stateful `updateCriterion`. -/
def updateCriterionS (mock : DBState) (σ : StoreState) (updatedCriterion : Criterion) :
    StoreState × Criterion :=
  let r := readDB mock σ
  let t := updateCriterionT r.1 updatedCriterion
  (if t.2 then writeDB r.2 t.1 else r.2, updatedCriterion)

/-- Stateful `deleteCriterion`. -/
def deleteCriterionS (mock : DBState) (σ : StoreState) (criterionId : String) :
    StoreState × Bool :=
  let r := readDB mock σ
  (writeDB r.2 (deleteCriterionT r.1 criterionId), true)

/-- Stateful `createOrUpdateScore`. -/
def createOrUpdateScoreS (mock : DBState) (σ : StoreState) (score : Score) :
    StoreState × Score :=
  let r := readDB mock σ
  (writeDB r.2 (createOrUpdateScoreT r.1 score), score)

/-- Stateful `deleteScore`. -/
def deleteScoreS (mock : DBState) (σ : StoreState) (scoreId : String) :
    StoreState × Bool :=
  let r := readDB mock σ
  (writeDB r.2 (deleteScoreT r.1 scoreId), true)

namespace P2

/-! ## The timestamped-cache variant of `dbService.ts` (src/unnamed/part_002)

This variant keeps a freshness window (`CACHE_DURATION = 100` ms), performs
no key-validity check on a parsed blob (so its cache may hold a partial
object), falls back to the empty snapshot — not mock data — on a missing or
unreadable blob, and its `writeDB` does not catch `setItem` errors. -/

/-- Module state of the part_002 variant: stored blob, cache (`dbCache` may
hold a key-incomplete parsed object), and `cacheTimestamp`. -/
structure StoreState where
  storage : StorageContent
  dbCache : Option RawDB
  cacheTimestamp : Nat
deriving DecidableEq, Repr

/-- The cache-miss path of part_002's `readDB`: parse the blob
(`serializedState ? JSON.parse(serializedState) : empty`), caching whatever
came out with a fresh timestamp; a throw is caught, caching the empty
snapshot without refreshing the timestamp. -/
def readStorage (now : Nat) (σ : StoreState) : RawDB × StoreState :=
  match σ.storage with
  | .parsed raw => (raw, { σ with dbCache := some raw, cacheTimestamp := now })
  | .empty => (dbToRaw emptyDB, { σ with dbCache := some (dbToRaw emptyDB), cacheTimestamp := now })
  | .unreadable => (dbToRaw emptyDB, { σ with dbCache := some (dbToRaw emptyDB) })

/-- part_002 `readDB` (lines 17–32): serve the cached object while it is
younger than `CACHE_DURATION`, else re-read the storage. -/
def readDB (now : Nat) (σ : StoreState) : RawDB × StoreState :=
  match σ.dbCache with
  | some c => if now - σ.cacheTimestamp < 100 then (c, σ) else readStorage now σ
  | none => readStorage now σ

/-- part_002 `writeDB` (lines 34–39): store the serialized snapshot, refresh
the cache and its timestamp (the refresh event dispatch carries no data and
is not modelled). -/
def writeDB (now : Nat) (_σ : StoreState) (db : DBState) : StoreState :=
  { storage := .parsed (dbToRaw db), dbCache := some (dbToRaw db), cacheTimestamp := now }

end P2

namespace Backend

/-! ## `Backend/server.js`

JS numbers are modelled as `JSNum`: either `NaN` or a rational.  The
comparison operators mirror JS (any comparison involving `NaN` is false);
arithmetic propagates `NaN`. -/

/-- A JS number: `NaN` or a finite value (modelled as `ℚ`). -/
inductive JSNum where
  | nan
  | num (q : ℚ)
deriving DecidableEq, Repr

/-- JS `<`: false whenever either side is `NaN`. -/
def jsLt : JSNum → JSNum → Bool
  | .num a, .num b => a < b
  | _, _ => false

/-- JS `>`: false whenever either side is `NaN`. -/
def jsGt : JSNum → JSNum → Bool
  | .num a, .num b => a > b
  | _, _ => false

/-- JS `+` on numbers: `NaN` propagates. -/
def jsAdd : JSNum → JSNum → JSNum
  | .num a, .num b => .num (a + b)
  | _, _ => .nan

/-- JS `/` by a non-zero literal: `NaN` propagates. -/
def jsDivLit (a : JSNum) (n : ℚ) : JSNum :=
  match a with
  | .num q => .num (q / n)
  | .nan => .nan

/-- The range validation of `POST /api/evaluations` (server.js, lines 221–229):
`scores.some(score => score < 1 || score > 10)`. -/
def anyScoreOutOfRange (scores : List JSNum) : Bool :=
  scores.any (fun score => jsLt score (.num 1) || jsGt score (.num 10))

/-- An `evaluations` row as inserted by the route. -/
structure Evaluation where
  projectId : String
  evaluatorName : String
  evaluatorEmail : String
  innovation : JSNum
  technical : JSNum
  impact : JSNum
  presentation : JSNum
  hederaIntegration : JSNum
  overallScore : JSNum
deriving DecidableEq, Repr

/-- The request body of `POST /api/evaluations`; absent-or-falsy required
string fields are modelled as `""`. -/
structure EvalInput where
  projectId : String
  evaluatorName : String
  evaluatorEmail : String
  innovation : JSNum
  technical : JSNum
  impact : JSNum
  presentation : JSNum
  hederaIntegration : JSNum
deriving DecidableEq, Repr

/-- The `overall_score` the route computes: the plain mean of the five
scores, `(innovation + technical + impact + presentation + hedera) / 5`. -/
def overallOf (input : EvalInput) : JSNum :=
  jsDivLit
    (jsAdd (jsAdd (jsAdd (jsAdd input.innovation input.technical) input.impact)
      input.presentation) input.hederaIntegration) 5

/-- The row the route inserts: the submitted scores verbatim plus the
computed `overall_score`. -/
def rowOf (input : EvalInput) : Evaluation :=
  ⟨input.projectId, input.evaluatorName, input.evaluatorEmail,
   input.innovation, input.technical, input.impact, input.presentation,
   input.hederaIntegration, overallOf input⟩

/-- `POST /api/evaluations` (server.js, lines 198–256): reject on missing
required fields, reject when some score is `< 1 || > 10` under JS comparison,
otherwise append the row with its computed `overall_score`. -/
def postEvaluation (evals : List Evaluation) (input : EvalInput) :
    Except String (List Evaluation × Evaluation) :=
  if input.projectId = "" ∨ input.evaluatorName = "" ∨ input.evaluatorEmail = "" then
    .error "Missing required fields"
  else if anyScoreOutOfRange [input.innovation, input.technical, input.impact,
      input.presentation, input.hederaIntegration] then
    .error "All scores must be between 1 and 10"
  else
    .ok (evals ++ [rowOf input], rowOf input)

/-- A `projects` row, restricted to the columns the leaderboard query uses. -/
structure BProject where
  id : String
  projectName : String
  teamName : String
  track : String
deriving DecidableEq, Repr

/-- A stored evaluation row, restricted to the columns the leaderboard
aggregates (rows satisfy the 1–10 CHECK constraints, so `overall_score`
is a plain numeric). -/
structure EvalRow where
  projectId : String
  overallScore : ℚ
deriving DecidableEq, Repr

/-- A leaderboard result row: the project with
`COUNT(e.id) as evaluation_count` and `AVG(e.overall_score) as average_score`. -/
structure LBRow where
  project : BProject
  evaluationCount : Nat
  averageScore : ℚ
deriving DecidableEq, Repr

/-- `ORDER BY average_score DESC, evaluation_count DESC` as a total preorder
on result rows. -/
def lbLe (a b : LBRow) : Bool :=
  decide (a.averageScore > b.averageScore ∨
    (a.averageScore = b.averageScore ∧ a.evaluationCount ≥ b.evaluationCount))

/-- The grouped row for one project, or `none` when `HAVING COUNT(e.id) > 0`
filters it out. -/
def lbRowFor (evals : List EvalRow) (p : BProject) : Option LBRow :=
  if (evals.filter (fun e => e.projectId = p.id)).length = 0 then none
  else some ⟨p, (evals.filter (fun e => e.projectId = p.id)).length,
    ((evals.filter (fun e => e.projectId = p.id)).map (fun e => e.overallScore)).sum
      / ((evals.filter (fun e => e.projectId = p.id)).length : ℚ)⟩

/-- The optional `AND p.track = $1` filter of the leaderboard query. -/
def trackFiltered (projects : List BProject) (track : Option String) : List BProject :=
  match track with
  | some t => projects.filter (fun p => p.track = t)
  | none => projects

/-- Whether a project survives `HAVING COUNT(e.id) > 0`: at least one
evaluation references it. -/
def qualifies (evals : List EvalRow) (p : BProject) : Bool :=
  decide ((evals.filter (fun e => e.projectId = p.id)).length ≠ 0)

/-- `GET /api/analytics/leaderboard` (server.js, lines 314–347): optional
track filter, group by project, keep projects with at least one evaluation,
order by average score descending then evaluation count descending, and
truncate to the requested `limit` (default 50). -/
def leaderboard (projects : List BProject) (evals : List EvalRow)
    (track : Option String) (lim : Nat) : List LBRow :=
  (((trackFiltered projects track).filterMap (lbRowFor evals)).mergeSort lbLe).take lim

end Backend

/-- `calculateOverallScore` (Frontend/lib/api.js, lines 171–188): the plain
mean of the five criterion scores. -/
def calculateOverallScore (innovation technical impact presentation hederaIntegration : ℚ) : ℚ :=
  (innovation + technical + impact + presentation + hederaIntegration) / 5

namespace CalcService

/-! ## The frontend aggregation engine -/

/-- Modelled from the spec: the calculation service (referenced by the
`App.tsx` comment "The calculation service will simply ignore it" but absent
from the provided sources) resolves a score's criterion, ignoring scores
whose criterion no longer exists. -/
def criterionWeight (criteria : List Criterion) (criterionId : String) : Option ℚ :=
  (criteria.find? (fun c => c.id = criterionId)).map (fun c => c.weight)

/-- Modelled from the spec: one judge's weighted mean over the criteria they
actually submitted for one project — each rating multiplied by its
criterion's weight, normalized by the sum of the weights present; `none`
when no submitted score resolves to an existing criterion (or the resolved
weights sum to zero). -/
def judgeWeightedMean (criteria : List Criterion) (judgeScores : List Score) : Option ℚ :=
  let resolved := judgeScores.filterMap
    (fun s => (criterionWeight criteria s.criterionId).map (fun w => (s.rating, w)))
  let totalWeight := (resolved.map (fun rw => rw.2)).sum
  if totalWeight = 0 then none
  else some ((resolved.map (fun rw => rw.1 * rw.2)).sum / totalWeight)

/-- Modelled from the spec: a project's aggregate — group the project's
scores by judge, average the per-judge weighted means, and report the number
of contributing judges as the evaluation count; `none` (not a phantom zero)
when no judge contributes. -/
def projectAggregate (criteria : List Criterion) (scores : List Score)
    (projectId : String) : Option (ℚ × Nat) :=
  let ps := scores.filter (fun s => s.projectId = projectId)
  let judgeIds := (ps.map (fun s => s.judgeId)).dedup
  let means := judgeIds.filterMap
    (fun j => judgeWeightedMean criteria (ps.filter (fun s => s.judgeId = j)))
  if means.length = 0 then none
  else some (means.sum / (means.length : ℚ), means.length)

end CalcService

/-- Modelled from the spec: Score identity is deterministic from the
`(project, judge, criterion)` triple (the minting itself lives in the
judge-scoring UI, absent from the provided sources), so a resubmission
carries the same id. -/
def mkScoreId (projectId judgeId criterionId : String) : String :=
  "s_" ++ projectId ++ "_" ++ judgeId ++ "_" ++ criterionId

/-! ## Helper lemmas -/

/-- Recursive characterization of the id-keyed upsert. -/
def upsertRec (l : List Score) (s : Score) : List Score :=
  match l with
  | [] => [s]
  | x :: xs => if x.id = s.id then s :: xs else x :: upsertRec xs s

theorem upsertById_eq_upsertRec (l : List Score) (s : Score) :
    upsertById l s = upsertRec l s := by
  induction l with
  | nil => rfl
  | cons x xs ih =>
    by_cases h : x.id = s.id
    · simp [upsertById, upsertRec, List.findIdx?_cons, h]
    · simp only [upsertById, upsertRec, List.findIdx?_cons, h, if_false,
        decide_eq_true_eq, if_neg, List.findIdx?_succ]
      simp only [upsertById] at ih
      cases hfi : xs.findIdx? (fun t => t.id = s.id) with
      | none =>
        rw [hfi] at ih
        exact congrArg (List.cons x) ih
      | some i =>
        rw [hfi] at ih
        exact congrArg (List.cons x) ih

theorem mem_upsertRec (l : List Score) (s : Score) : s ∈ upsertRec l s := by
  induction l with
  | nil => simp [upsertRec]
  | cons x xs ih =>
    by_cases h : x.id = s.id <;> simp [upsertRec, h, ih]

theorem mem_upsertById (l : List Score) (s : Score) : s ∈ upsertById l s := by
  rw [upsertById_eq_upsertRec]; exact mem_upsertRec l s

/-- Scores whose triple matches but whose id is not in the list by coherence:
a coherent list with no occurrence of the triple's deterministic id contains
no score with that triple. -/
theorem filter_triple_eq_nil (p j c : String) (l : List Score)
    (hco : ∀ s ∈ l, s.id = mkScoreId s.projectId s.judgeId s.criterionId)
    (hnotin : mkScoreId p j c ∉ l.map Score.id) :
    l.filter (fun s => s.projectId == p && s.judgeId == j && s.criterionId == c) = [] := by
  rw [List.filter_eq_nil_iff]
  intro s hs hmatch
  simp only [Bool.and_eq_true, beq_iff_eq] at hmatch
  apply hnotin
  rw [List.mem_map]
  refine ⟨s, hs, ?_⟩
  rw [hco s hs, hmatch.1.1, hmatch.1.2, hmatch.2]

theorem upsertRec_twice_filter (p j c : String) (r1 r2 : ℚ) (l : List Score)
    (hco : ∀ s ∈ l, s.id = mkScoreId s.projectId s.judgeId s.criterionId)
    (hnd : (l.map Score.id).Nodup) :
    (upsertRec (upsertRec l ⟨mkScoreId p j c, p, j, c, r1⟩)
        ⟨mkScoreId p j c, p, j, c, r2⟩).filter
      (fun s => s.projectId == p && s.judgeId == j && s.criterionId == c)
      = [⟨mkScoreId p j c, p, j, c, r2⟩] := by
  induction l with
  | nil => simp [upsertRec]
  | cons x xs ih =>
    rw [List.map_cons, List.nodup_cons] at hnd
    by_cases h : x.id = mkScoreId p j c
    · simp only [upsertRec, h, if_pos rfl, if_pos]
      rw [List.filter_cons_of_pos (by simp)]
      rw [filter_triple_eq_nil p j c xs (fun s hs => hco s (List.mem_cons_of_mem x hs))
        (h ▸ hnd.1)]
    · have hx : ¬(x.projectId = p ∧ x.judgeId = j ∧ x.criterionId = c) := by
        intro ⟨h1, h2, h3⟩
        exact h (by rw [hco x (List.mem_cons_self x xs), h1, h2, h3])
      simp only [upsertRec, h, if_neg, if_false]
      rw [List.filter_cons_of_neg (by simp only [Bool.and_eq_true, beq_iff_eq]; tauto)]
      exact ih (fun s hs => hco s (List.mem_cons_of_mem x hs)) hnd.2

/-- C1: on a snapshot whose stored Scores carry the deterministic
triple-derived identity (pairwise distinct ids), submitting two Scores with
the same `(projectId, judgeId, criterionId)` triple but different ratings
through `createOrUpdateScore` leaves exactly one stored Score for that
triple, holding the second rating — the resubmission replaces the prior
Score under the same identity and never appends a duplicate. -/
theorem c1_score_upsert_unique (db : DBState) (p j c : String) (r1 r2 : ℚ)
    (hco : ∀ s ∈ db.scores, s.id = mkScoreId s.projectId s.judgeId s.criterionId)
    (hnd : (db.scores.map Score.id).Nodup)
    (_hne : r1 ≠ r2) :
    (createOrUpdateScoreT (createOrUpdateScoreT db ⟨mkScoreId p j c, p, j, c, r1⟩)
        ⟨mkScoreId p j c, p, j, c, r2⟩).scores.filter
      (fun s => s.projectId == p && s.judgeId == j && s.criterionId == c)
      = [⟨mkScoreId p j c, p, j, c, r2⟩] := by
  show (upsertById (upsertById db.scores _) _).filter _ = _
  rw [upsertById_eq_upsertRec, upsertById_eq_upsertRec]
  exact upsertRec_twice_filter p j c r1 r2 db.scores hco hnd

/-- Witness for C1 at a concrete snapshot already holding one coherent Score. -/
theorem c1_score_upsert_unique_witness :
    (∀ s ∈ (⟨[], [], [], [⟨mkScoreId "P" "J2" "c1", "P", "J2", "c1", 5⟩]⟩ : DBState).scores,
        s.id = mkScoreId s.projectId s.judgeId s.criterionId) ∧
    (((⟨[], [], [], [⟨mkScoreId "P" "J2" "c1", "P", "J2", "c1", 5⟩]⟩ : DBState).scores.map
        Score.id).Nodup) ∧
    (8 : ℚ) ≠ 6 ∧
    (createOrUpdateScoreT
        (createOrUpdateScoreT ⟨[], [], [], [⟨mkScoreId "P" "J2" "c1", "P", "J2", "c1", 5⟩]⟩
          ⟨mkScoreId "P" "J" "c1", "P", "J", "c1", 8⟩)
        ⟨mkScoreId "P" "J" "c1", "P", "J", "c1", 6⟩).scores.filter
      (fun s => s.projectId == "P" && s.judgeId == "J" && s.criterionId == "c1")
      = [⟨mkScoreId "P" "J" "c1", "P", "J", "c1", 6⟩] :=
  ⟨by decide, by decide, by decide,
    c1_score_upsert_unique ⟨[], [], [], [⟨mkScoreId "P" "J2" "c1", "P", "J2", "c1", 5⟩]⟩
      "P" "J" "c1" 8 6 (by decide) (by decide) (by decide)⟩

theorem readDB_flag (mock : DBState) (σ : StoreState) :
    (readDB mock σ).2.storageWriteFails = σ.storageWriteFails := by
  unfold readDB writeDB
  repeat' split
  all_goals rfl

theorem writeDB_storage_ok (σ : StoreState) (db : DBState)
    (hok : σ.storageWriteFails = false) :
    (writeDB σ db).storage = .parsed (dbToRaw db) := by
  unfold writeDB; rw [hok]; rfl

/-- C2: `deleteProject` removes every Score referencing the project,
`deleteJudge` removes every Score the judge authored, `deleteCriterion`
leaves the scores collection untouched, and for the two cascading deletions
the primary removal and the cascaded Score removals land in the single
snapshot written by the one `writeDB` call of the operation. -/
theorem c2_cascade_deletes (db : DBState) (pid jid cid : String) (mock : DBState)
    (σ : StoreState) (hok : σ.storageWriteFails = false) :
    (∀ s ∈ (deleteProjectT db pid).scores, s.projectId ≠ pid) ∧
    (∀ s ∈ (deleteJudgeT db jid).scores, s.judgeId ≠ jid) ∧
    (deleteCriterionT db cid).scores = db.scores ∧
    (deleteProjectS mock σ pid).1.storage
      = .parsed (dbToRaw (deleteProjectT (readDB mock σ).1 pid)) ∧
    (deleteJudgeS mock σ jid).1.storage
      = .parsed (dbToRaw (deleteJudgeT (readDB mock σ).1 jid)) := by
  refine ⟨?_, ?_, rfl, ?_, ?_⟩
  · intro s hs
    simp only [deleteProjectT, List.mem_filter, decide_not, Bool.not_eq_eq_eq_not,
      Bool.not_true, decide_eq_false_iff_not] at hs
    exact hs.2
  · intro s hs
    simp only [deleteJudgeT, List.mem_filter, decide_not, Bool.not_eq_eq_eq_not,
      Bool.not_true, decide_eq_false_iff_not] at hs
    exact hs.2
  · exact writeDB_storage_ok _ _ (by rw [readDB_flag]; exact hok)
  · exact writeDB_storage_ok _ _ (by rw [readDB_flag]; exact hok)

/-- Witness for C2 at a concrete snapshot and store state. -/
theorem c2_cascade_deletes_witness :
    ((⟨.empty, false, none⟩ : StoreState).storageWriteFails = false) ∧
    ((∀ s ∈ (deleteProjectT ⟨[⟨"p1", "a", "", "A", "t"⟩], [], [],
        [⟨"s1", "p1", "j1", "c1", 5⟩, ⟨"s2", "p2", "j1", "c1", 6⟩]⟩ "p1").scores,
        s.projectId ≠ "p1") ∧
      (∀ s ∈ (deleteJudgeT ⟨[⟨"p1", "a", "", "A", "t"⟩], [], [],
        [⟨"s1", "p1", "j1", "c1", 5⟩, ⟨"s2", "p2", "j1", "c1", 6⟩]⟩ "j1").scores,
        s.judgeId ≠ "j1") ∧
      (deleteCriterionT ⟨[⟨"p1", "a", "", "A", "t"⟩], [], [],
        [⟨"s1", "p1", "j1", "c1", 5⟩, ⟨"s2", "p2", "j1", "c1", 6⟩]⟩ "c1").scores
        = (⟨[⟨"p1", "a", "", "A", "t"⟩], [], [],
        [⟨"s1", "p1", "j1", "c1", 5⟩, ⟨"s2", "p2", "j1", "c1", 6⟩]⟩ : DBState).scores ∧
      (deleteProjectS emptyDB ⟨.empty, false, none⟩ "p1").1.storage
        = .parsed (dbToRaw (deleteProjectT (readDB emptyDB ⟨.empty, false, none⟩).1 "p1")) ∧
      (deleteJudgeS emptyDB ⟨.empty, false, none⟩ "j1").1.storage
        = .parsed (dbToRaw (deleteJudgeT (readDB emptyDB ⟨.empty, false, none⟩).1 "j1"))) :=
  ⟨rfl, c2_cascade_deletes
    ⟨[⟨"p1", "a", "", "A", "t"⟩], [], [],
      [⟨"s1", "p1", "j1", "c1", 5⟩, ⟨"s2", "p2", "j1", "c1", 6⟩]⟩
    "p1" "j1" "c1" emptyDB ⟨.empty, false, none⟩ rfl⟩

theorem readDB_of_cache (mock : DBState) (σ : StoreState) (db : DBState)
    (h : σ.dbCache = some db) : readDB mock σ = (db, σ) := by
  unfold readDB; rw [h]

theorem writeDB_cache (σ : StoreState) (db : DBState)
    (hok : σ.storageWriteFails = false) : (writeDB σ db).dbCache = some db := by
  unfold writeDB; rw [hok]; rfl

theorem readDB_cache_primed (mock : DBState) (σ : StoreState)
    (hok : σ.storageWriteFails = false) :
    (readDB mock σ).2.dbCache = some (readDB mock σ).1 := by
  unfold readDB writeDB
  repeat' split
  all_goals simp_all

theorem updateProjectT_of_not_found (db : DBState) (up : Project)
    (h : (updateProjectT db up).2 = false) : (updateProjectT db up).1 = db := by
  unfold updateProjectT at h ⊢
  cases hfi : db.projects.findIdx? (fun p => p.id = up.id) with
  | some i => rw [hfi] at h; simp at h
  | none => rfl

theorem updateJudgeT_of_not_found (db : DBState) (uj : Judge)
    (h : (updateJudgeT db uj).2 = false) : (updateJudgeT db uj).1 = db := by
  unfold updateJudgeT at h ⊢
  cases hfi : db.judges.findIdx? (fun j => j.id = uj.id) with
  | some i => rw [hfi] at h; simp at h
  | none => rfl

theorem updateCriterionT_of_not_found (db : DBState) (uc : Criterion)
    (h : (updateCriterionT db uc).2 = false) : (updateCriterionT db uc).1 = db := by
  unfold updateCriterionT at h ⊢
  cases hfi : db.criteria.findIdx? (fun c => c.id = uc.id) with
  | some i => rw [hfi] at h; simp at h
  | none => rfl

/-- After a successful write the next read serves the just-written snapshot. -/
theorem readback_after_write (mock : DBState) (σ : StoreState) (db2 : DBState)
    (hok : σ.storageWriteFails = false) :
    (readDB mock (writeDB (readDB mock σ).2 db2)).1 = db2 := by
  rw [readDB_of_cache mock _ db2 (writeDB_cache _ _ (by rw [readDB_flag]; exact hok))]

/-- C7: after every mutating repository operation a subsequent read returns
the mutated snapshot — the write path installs the just-written snapshot in
the cache, so the read-after-write round trip observes the mutation; in the
timestamped-cache variant the round trip holds whether or not the read falls
inside the freshness window. -/
theorem c7_read_after_write (mock : DBState) (σ : StoreState)
    (hok : σ.storageWriteFails = false)
    (now : Nat) (nps : List Project) (up : Project) (pid : String)
    (nj : Judge) (uj : Judge) (jid : String)
    (nc : Criterion) (uc : Criterion) (cid : String)
    (s : Score) (sid : String) :
    (readDB mock (createProjectsS mock σ now nps).1).1
      = (createProjectsT now (readDB mock σ).1 nps).1 ∧
    (readDB mock (updateProjectS mock σ up).1).1
      = (updateProjectT (readDB mock σ).1 up).1 ∧
    (readDB mock (deleteProjectS mock σ pid).1).1
      = deleteProjectT (readDB mock σ).1 pid ∧
    (readDB mock (createJudgeS mock σ now nj).1).1
      = (createJudgeT now (readDB mock σ).1 nj).1 ∧
    (readDB mock (updateJudgeS mock σ uj).1).1
      = (updateJudgeT (readDB mock σ).1 uj).1 ∧
    (readDB mock (deleteJudgeS mock σ jid).1).1
      = deleteJudgeT (readDB mock σ).1 jid ∧
    (readDB mock (createCriterionS mock σ now nc).1).1
      = (createCriterionT now (readDB mock σ).1 nc).1 ∧
    (readDB mock (updateCriterionS mock σ uc).1).1
      = (updateCriterionT (readDB mock σ).1 uc).1 ∧
    (readDB mock (deleteCriterionS mock σ cid).1).1
      = deleteCriterionT (readDB mock σ).1 cid ∧
    (readDB mock (createOrUpdateScoreS mock σ s).1).1
      = createOrUpdateScoreT (readDB mock σ).1 s ∧
    (readDB mock (deleteScoreS mock σ sid).1).1
      = deleteScoreT (readDB mock σ).1 sid ∧
    (∀ (now1 now2 : Nat) (σ2 : P2.StoreState) (db : DBState),
      (P2.readDB now2 (P2.writeDB now1 σ2 db)).1 = dbToRaw db) := by
  refine ⟨?_, ?_, ?_, ?_, ?_, ?_, ?_, ?_, ?_, ?_, ?_, ?_⟩
  · exact readback_after_write mock σ _ hok
  · show (readDB mock (if (updateProjectT (readDB mock σ).1 up).2 then _ else _)).1 = _
    cases hf : (updateProjectT (readDB mock σ).1 up).2 with
    | true =>
      rw [if_pos rfl]
      exact readback_after_write mock σ _ hok
    | false =>
      rw [if_neg (by simp)]
      rw [readDB_of_cache mock _ _ (readDB_cache_primed mock σ hok)]
      exact (updateProjectT_of_not_found _ up hf).symm
  · exact readback_after_write mock σ _ hok
  · exact readback_after_write mock σ _ hok
  · show (readDB mock (if (updateJudgeT (readDB mock σ).1 uj).2 then _ else _)).1 = _
    cases hf : (updateJudgeT (readDB mock σ).1 uj).2 with
    | true =>
      rw [if_pos rfl]
      exact readback_after_write mock σ _ hok
    | false =>
      rw [if_neg (by simp)]
      rw [readDB_of_cache mock _ _ (readDB_cache_primed mock σ hok)]
      exact (updateJudgeT_of_not_found _ uj hf).symm
  · exact readback_after_write mock σ _ hok
  · exact readback_after_write mock σ _ hok
  · show (readDB mock (if (updateCriterionT (readDB mock σ).1 uc).2 then _ else _)).1 = _
    cases hf : (updateCriterionT (readDB mock σ).1 uc).2 with
    | true =>
      rw [if_pos rfl]
      exact readback_after_write mock σ _ hok
    | false =>
      rw [if_neg (by simp)]
      rw [readDB_of_cache mock _ _ (readDB_cache_primed mock σ hok)]
      exact (updateCriterionT_of_not_found _ uc hf).symm
  · exact readback_after_write mock σ _ hok
  · exact readback_after_write mock σ _ hok
  · exact readback_after_write mock σ _ hok
  · intro now1 now2 σ2 db
    unfold P2.readDB P2.writeDB P2.readStorage
    repeat' split
    all_goals simp_all

/-- Witness for C7: a concrete store state with working storage observes a
concrete deletion on the very next read. -/
theorem c7_read_after_write_witness :
    ((⟨.empty, false, none⟩ : StoreState).storageWriteFails = false) ∧
    (readDB emptyDB (deleteProjectS emptyDB ⟨.empty, false, none⟩ "p1").1).1
      = deleteProjectT (readDB emptyDB ⟨.empty, false, none⟩).1 "p1" :=
  ⟨rfl,
    (c7_read_after_write emptyDB ⟨.empty, false, none⟩ rfl 0 [] ⟨"p1", "a", "", "A", "t"⟩
      "p1" ⟨"", "j", []⟩ ⟨"", "j", []⟩ "j1" ⟨"", "c", 1⟩ ⟨"", "c", 1⟩ "c1"
      ⟨"s1", "p1", "j1", "c1", 5⟩ "s1").2.2.1⟩

theorem writeDB_of_fails (σ : StoreState) (db : DBState)
    (h : σ.storageWriteFails = true) : writeDB σ db = σ := by
  unfold writeDB; rw [h]; rfl

theorem readDB_storage_of_fails (mock : DBState) (σ : StoreState)
    (h : σ.storageWriteFails = true) : (readDB mock σ).2.storage = σ.storage := by
  unfold readDB writeDB
  repeat' split
  all_goals simp_all

/-- C10: when persisting to the underlying storage throws, every mutating
repository operation of `services/dbService.ts` still resolves with its
normal result value (created entity, updated entity, or `{success: true}`);
the failure is swallowed inside `writeDB` — nothing is persisted and no
rejection reaches the caller. -/
theorem c10_storage_failure_swallowed (mock : DBState) (σ : StoreState)
    (h : σ.storageWriteFails = true)
    (now : Nat) (nps : List Project) (up : Project) (pid : String)
    (nj uj : Judge) (jid : String) (nc uc : Criterion) (cid : String)
    (s : Score) (sid : String) :
    (createProjectsS mock σ now nps).2 = mintProjectIds now nps ∧
    (updateProjectS mock σ up).2 = up ∧
    (deleteProjectS mock σ pid).2 = true ∧
    (createJudgeS mock σ now nj).2 = { nj with id := "j_" ++ toString now } ∧
    (updateJudgeS mock σ uj).2 = uj ∧
    (deleteJudgeS mock σ jid).2 = true ∧
    (createCriterionS mock σ now nc).2 = { nc with id := "c_" ++ toString now } ∧
    (updateCriterionS mock σ uc).2 = uc ∧
    (deleteCriterionS mock σ cid).2 = true ∧
    (createOrUpdateScoreS mock σ s).2 = s ∧
    (deleteScoreS mock σ sid).2 = true ∧
    (createProjectsS mock σ now nps).1.storage = σ.storage ∧
    (deleteProjectS mock σ pid).1.storage = σ.storage ∧
    (createOrUpdateScoreS mock σ s).1.storage = σ.storage := by
  have hflag : (readDB mock σ).2.storageWriteFails = true := by
    rw [readDB_flag]; exact h
  refine ⟨rfl, rfl, rfl, rfl, rfl, rfl, rfl, rfl, rfl, rfl, rfl, ?_, ?_, ?_⟩
  · show (writeDB (readDB mock σ).2 _).storage = σ.storage
    rw [writeDB_of_fails _ _ hflag, readDB_storage_of_fails mock σ h]
  · show (writeDB (readDB mock σ).2 _).storage = σ.storage
    rw [writeDB_of_fails _ _ hflag, readDB_storage_of_fails mock σ h]
  · show (writeDB (readDB mock σ).2 _).storage = σ.storage
    rw [writeDB_of_fails _ _ hflag, readDB_storage_of_fails mock σ h]

/-- Witness for C10 on a concrete failing store. -/
theorem c10_storage_failure_swallowed_witness :
    ((⟨.empty, true, none⟩ : StoreState).storageWriteFails = true) ∧
    (deleteProjectS emptyDB ⟨.empty, true, none⟩ "p1").2 = true ∧
    (createOrUpdateScoreS emptyDB ⟨.empty, true, none⟩ ⟨"s1", "p1", "j1", "c1", 5⟩).2
      = ⟨"s1", "p1", "j1", "c1", 5⟩ ∧
    (deleteProjectS emptyDB ⟨.empty, true, none⟩ "p1").1.storage = .empty :=
  ⟨rfl,
    (c10_storage_failure_swallowed emptyDB ⟨.empty, true, none⟩ rfl 0 []
      ⟨"p1", "a", "", "A", "t"⟩ "p1" ⟨"", "j", []⟩ ⟨"", "j", []⟩ "j1"
      ⟨"", "c", 1⟩ ⟨"", "c", 1⟩ "c1" ⟨"s1", "p1", "j1", "c1", 5⟩ "s1").2.2.1,
    (c10_storage_failure_swallowed emptyDB ⟨.empty, true, none⟩ rfl 0 []
      ⟨"p1", "a", "", "A", "t"⟩ "p1" ⟨"", "j", []⟩ ⟨"", "j", []⟩ "j1"
      ⟨"", "c", 1⟩ ⟨"", "c", 1⟩ "c1" ⟨"s1", "p1", "j1", "c1", 5⟩ "s1").2.2.2.2.2.2.2.2.2.1,
    (c10_storage_failure_swallowed emptyDB ⟨.empty, true, none⟩ rfl 0 []
      ⟨"p1", "a", "", "A", "t"⟩ "p1" ⟨"", "j", []⟩ ⟨"", "j", []⟩ "j1"
      ⟨"", "c", 1⟩ ⟨"", "c", 1⟩ "c1" ⟨"s1", "p1", "j1", "c1", 5⟩ "s1").2.2.2.2.2.2.2.2.2.2.2.2.1⟩

/-- Counterexample to C9 as stated: on an empty database, updating or
deleting a nonexistent project does not fail with `NotFoundError` —
`updateProject` resolves with the given entity (writing nothing) and
`deleteProject` resolves `{success: true}`. -/
theorem c9_not_found_counterexample :
    updateProjectT emptyDB ⟨"ghost", "g", "", "A", "t"⟩ = (emptyDB, false) ∧
    (updateProjectS emptyDB ⟨.empty, false, none⟩ ⟨"ghost", "g", "", "A", "t"⟩).2
      = ⟨"ghost", "g", "", "A", "t"⟩ ∧
    (deleteProjectS emptyDB ⟨.empty, false, none⟩ "ghost").2 = true ∧
    deleteProjectT emptyDB "ghost" = emptyDB := by
  refine ⟨by decide, rfl, rfl, by decide⟩

/-- C9 (amended): `update` on an absent id resolves successfully with the
given entity and performs no write (the stored snapshot is unchanged);
`delete` on an absent id resolves `{success: true}` as an idempotent no-op
(given no orphaned Score references the id, which the cascade maintains);
neither operation raises `NotFoundError`. -/
theorem c9_absent_id_noop (db : DBState) (up : Project) (pid : String)
    (h1 : ∀ q ∈ db.projects, q.id ≠ up.id)
    (h2 : ∀ q ∈ db.projects, q.id ≠ pid)
    (h3 : ∀ s ∈ db.scores, s.projectId ≠ pid) :
    updateProjectT db up = (db, false) ∧
    deleteProjectT db pid = db ∧
    (∀ mock σ, (updateProjectS mock σ up).2 = up) ∧
    (∀ mock σ, (deleteProjectS mock σ pid).2 = true) := by
  refine ⟨?_, ?_, fun mock σ => rfl, fun mock σ => rfl⟩
  · unfold updateProjectT
    rw [List.findIdx?_eq_none_iff.mpr (fun q hq => by simpa using h1 q hq)]
  · unfold deleteProjectT
    rw [List.filter_eq_self.mpr (fun q hq => by simpa using h2 q hq),
      List.filter_eq_self.mpr (fun s hs => by simpa using h3 s hs)]

/-- Witness for C9's amended statement on a concrete nonempty database. -/
theorem c9_absent_id_noop_witness :
    (∀ q ∈ (⟨[⟨"p1", "a", "", "A", "t"⟩], [], [],
        [⟨"s1", "p1", "j1", "c1", 5⟩]⟩ : DBState).projects, q.id ≠ "ghost") ∧
    (∀ s ∈ (⟨[⟨"p1", "a", "", "A", "t"⟩], [], [],
        [⟨"s1", "p1", "j1", "c1", 5⟩]⟩ : DBState).scores, s.projectId ≠ "ghost") ∧
    updateProjectT ⟨[⟨"p1", "a", "", "A", "t"⟩], [], [], [⟨"s1", "p1", "j1", "c1", 5⟩]⟩
        ⟨"ghost", "g", "", "A", "t"⟩
      = (⟨[⟨"p1", "a", "", "A", "t"⟩], [], [], [⟨"s1", "p1", "j1", "c1", 5⟩]⟩, false) ∧
    deleteProjectT ⟨[⟨"p1", "a", "", "A", "t"⟩], [], [], [⟨"s1", "p1", "j1", "c1", 5⟩]⟩ "ghost"
      = ⟨[⟨"p1", "a", "", "A", "t"⟩], [], [], [⟨"s1", "p1", "j1", "c1", 5⟩]⟩ :=
  ⟨by decide, by decide,
    (c9_absent_id_noop ⟨[⟨"p1", "a", "", "A", "t"⟩], [], [], [⟨"s1", "p1", "j1", "c1", 5⟩]⟩
      ⟨"ghost", "g", "", "A", "t"⟩ "ghost" (by decide) (by decide) (by decide)).1,
    (c9_absent_id_noop ⟨[⟨"p1", "a", "", "A", "t"⟩], [], [], [⟨"s1", "p1", "j1", "c1", 5⟩]⟩
      ⟨"ghost", "g", "", "A", "t"⟩ "ghost" (by decide) (by decide) (by decide)).2.1⟩

/-- Counterexample to C5 as stated: a judge authorized only for track "A"
submits a Score for a project with track "B"; `createOrUpdateScore` raises
no `UnauthorizedTrackError` and the Score is persisted. -/
theorem c5_unauthorized_counterexample :
    "B" ∉ (⟨"j1", "J", ["A"]⟩ : Judge).tracks ∧
    (createOrUpdateScoreT ⟨[⟨"p1", "P", "", "B", "t"⟩], [⟨"j1", "J", ["A"]⟩], [], []⟩
        ⟨mkScoreId "p1" "j1" "c1", "p1", "j1", "c1", 7⟩).scores
      = [⟨mkScoreId "p1" "j1" "c1", "p1", "j1", "c1", 7⟩] := by
  exact ⟨by decide, by decide⟩

/-- C5 (amended): the score-upsert operation performs no track
authorization — the submitted Score is always persisted, whatever the
judge's tracks; track eligibility is enforced upstream only, by the
assignment resolver presenting a judge exactly the projects whose track
lies in the judge's track set. -/
theorem c5_no_track_check (db : DBState) (s : Score) (judge : Judge)
    (projects : List Project) (p : Project) :
    s ∈ (createOrUpdateScoreT db s).scores ∧
    (p ∈ assignedProjects judge projects ↔ p ∈ projects ∧ p.track ∈ judge.tracks) := by
  constructor
  · exact mem_upsertById db.scores s
  · simp [assignedProjects, List.mem_filter]

/-- Witness for C5's amended statement at a concrete unauthorized pair. -/
theorem c5_no_track_check_witness :
    (⟨mkScoreId "p1" "j1" "c1", "p1", "j1", "c1", 7⟩ : Score) ∈
      (createOrUpdateScoreT ⟨[⟨"p1", "P", "", "B", "t"⟩], [⟨"j1", "J", ["A"]⟩], [], []⟩
        ⟨mkScoreId "p1" "j1" "c1", "p1", "j1", "c1", 7⟩).scores ∧
    ((⟨"p1", "P", "", "B", "t"⟩ : Project) ∈
        assignedProjects ⟨"j1", "J", ["A"]⟩ [⟨"p1", "P", "", "B", "t"⟩] ↔
      (⟨"p1", "P", "", "B", "t"⟩ : Project) ∈ [(⟨"p1", "P", "", "B", "t"⟩ : Project)] ∧
        ("B" : String) ∈ ["A"]) :=
  c5_no_track_check ⟨[⟨"p1", "P", "", "B", "t"⟩], [⟨"j1", "J", ["A"]⟩], [], []⟩
    ⟨mkScoreId "p1" "j1" "c1", "p1", "j1", "c1", 7⟩ ⟨"j1", "J", ["A"]⟩
    [⟨"p1", "P", "", "B", "t"⟩] ⟨"p1", "P", "", "B", "t"⟩

/-- Counterexample to C6 as stated: the repository-level score submission
(`createOrUpdateScore`) stores a rating of `0` without any rejection, and the
backend route's range validation does not reject `NaN` (JS comparisons with
`NaN` are false). -/
theorem c6_rating_validation_counterexample :
    (createOrUpdateScoreT emptyDB ⟨"sx", "p1", "j1", "c1", 0⟩).scores
      = [⟨"sx", "p1", "j1", "c1", 0⟩] ∧
    Backend.anyScoreOutOfRange [.nan, .num 5, .num 5, .num 5, .num 5] = false := by
  exact ⟨by decide, by decide⟩

/-- C6 (amended): the localStorage repository's score upsert performs no
rating validation at all (every value, `0` included, is stored); range
validation exists only in the backend evaluations route, which rejects a
submission exactly when some score compares `< 1` or `> 10` as a JS number —
so `0`, `11`, `-1` are rejected while `1` and `10` are accepted — but `NaN`
slips through the comparison; accepted scores are inserted verbatim, never
clamped. -/
theorem c6_rating_range_validation (q : ℚ) (db : DBState) (s : Score)
    (evals : List Backend.Evaluation) (input : Backend.EvalInput)
    (hreq : ¬(input.projectId = "" ∨ input.evaluatorName = "" ∨ input.evaluatorEmail = "")) :
    s ∈ (createOrUpdateScoreT db s).scores ∧
    (Backend.anyScoreOutOfRange [.num q] = true ↔ (q < 1 ∨ q > 10)) ∧
    Backend.anyScoreOutOfRange [.num 0] = true ∧
    Backend.anyScoreOutOfRange [.num 11] = true ∧
    Backend.anyScoreOutOfRange [.num (-1)] = true ∧
    Backend.anyScoreOutOfRange [.num 1] = false ∧
    Backend.anyScoreOutOfRange [.num 10] = false ∧
    Backend.anyScoreOutOfRange [.nan] = false ∧
    (Backend.anyScoreOutOfRange [input.innovation, input.technical, input.impact,
        input.presentation, input.hederaIntegration] = true →
      Backend.postEvaluation evals input = .error "All scores must be between 1 and 10") ∧
    (Backend.anyScoreOutOfRange [input.innovation, input.technical, input.impact,
        input.presentation, input.hederaIntegration] = false →
      Backend.postEvaluation evals input
        = .ok (evals ++ [Backend.rowOf input], Backend.rowOf input) ∧
      (Backend.rowOf input).innovation = input.innovation ∧
      (Backend.rowOf input).technical = input.technical ∧
      (Backend.rowOf input).impact = input.impact ∧
      (Backend.rowOf input).presentation = input.presentation ∧
      (Backend.rowOf input).hederaIntegration = input.hederaIntegration) := by
  refine ⟨mem_upsertById db.scores s, ?_, by decide, by decide, by decide, by decide,
    by decide, by decide, ?_, ?_⟩
  · simp [Backend.anyScoreOutOfRange, Backend.jsLt, Backend.jsGt]
  · intro hbad
    unfold Backend.postEvaluation
    rw [if_neg hreq, if_pos hbad]
  · intro hgood
    unfold Backend.postEvaluation
    rw [if_neg hreq, if_neg (by rw [hgood]; simp)]
    exact ⟨rfl, rfl, rfl, rfl, rfl, rfl⟩

/-- Witness for C6's amended statement at rating `0`, a concrete snapshot,
and a concrete valid-field request. -/
theorem c6_rating_range_validation_witness :
    ¬(("p1" : String) = "" ∨ ("J" : String) = "" ∨ ("j@x.io" : String) = "") ∧
    ((0 : ℚ) < 1 ∨ (0 : ℚ) > 10) ∧
    (⟨"sx", "p1", "j1", "c1", 0⟩ : Score) ∈
      (createOrUpdateScoreT emptyDB ⟨"sx", "p1", "j1", "c1", 0⟩).scores ∧
    (Backend.anyScoreOutOfRange [.num 0] = true ↔ ((0 : ℚ) < 1 ∨ (0 : ℚ) > 10)) ∧
    Backend.postEvaluation []
        ⟨"p1", "J", "j@x.io", .num 0, .num 5, .num 5, .num 5, .num 5⟩
      = .error "All scores must be between 1 and 10" :=
  ⟨by decide, by norm_num,
    (c6_rating_range_validation 0 emptyDB ⟨"sx", "p1", "j1", "c1", 0⟩ []
      ⟨"p1", "J", "j@x.io", .num 0, .num 5, .num 5, .num 5, .num 5⟩ (by decide)).1,
    (c6_rating_range_validation 0 emptyDB ⟨"sx", "p1", "j1", "c1", 0⟩ []
      ⟨"p1", "J", "j@x.io", .num 0, .num 5, .num 5, .num 5, .num 5⟩ (by decide)).2.1,
    (c6_rating_range_validation 0 emptyDB ⟨"sx", "p1", "j1", "c1", 0⟩ []
      ⟨"p1", "J", "j@x.io", .num 0, .num 5, .num 5, .num 5, .num 5⟩
      (by decide)).2.2.2.2.2.2.2.2.1 (by decide)⟩

/-- Counterexample to C8 as stated: a stored blob that parses but is missing
three of the four keys is returned as-is by the part_002 loader (no key
check — partial data, not the documented empty-but-valid snapshot), and the
`services/dbService.ts` loader re-initializes an empty medium with the mock
snapshot rather than the empty one whenever the bundled mock data is
nonempty. -/
theorem c8_load_counterexample :
    (P2.readDB 0 ⟨.parsed ⟨some [], none, none, none⟩, none, 0⟩).1
      = ⟨some [], none, none, none⟩ ∧
    (⟨some [], none, none, none⟩ : RawDB) ≠ dbToRaw emptyDB := by
  exact ⟨rfl, by decide⟩

/-- C8 (amended): neither loader ever fails the caller.  The part_002 loader
returns the empty-but-valid snapshot on an empty or unreadable medium, but
performs no key check: a parsed object missing any of the four keys is
returned (and cached) as-is, i.e. partially, not treated as total
corruption.  The `services/dbService.ts` loader does treat a missing key as
total corruption, but re-initializes with the bundled mock snapshot, not the
empty one. -/
theorem c8_load_corruption_handling (now : Nat) (σ2 : P2.StoreState) (raw : RawDB)
    (mock : DBState) (σ : StoreState) (hc2 : σ2.dbCache = none) (hc : σ.dbCache = none) :
    (σ2.storage = .empty → (P2.readDB now σ2).1 = dbToRaw emptyDB) ∧
    (σ2.storage = .unreadable → (P2.readDB now σ2).1 = dbToRaw emptyDB) ∧
    (σ2.storage = .parsed raw → (P2.readDB now σ2).1 = raw) ∧
    (σ.storage = .empty → (readDB mock σ).1 = mock) ∧
    (σ.storage = .unreadable → (readDB mock σ).1 = mock) ∧
    (σ.storage = .parsed raw → raw.complete? = none → (readDB mock σ).1 = mock) := by
  refine ⟨?_, ?_, ?_, ?_, ?_, ?_⟩
  · intro h; simp [P2.readDB, P2.readStorage, hc2, h]
  · intro h; simp [P2.readDB, P2.readStorage, hc2, h]
  · intro h; simp [P2.readDB, P2.readStorage, hc2, h]
  · intro h
    unfold readDB writeDB
    rw [hc, h]
  · intro h
    unfold readDB writeDB
    rw [hc, h]
  · intro h hcomp
    unfold readDB writeDB
    rw [hc, h]
    simp [hcomp]

/-- Witness for C8's amended statement on concrete store states. -/
theorem c8_load_corruption_handling_witness :
    ((⟨.empty, none, 0⟩ : P2.StoreState).dbCache = none) ∧
    ((⟨.empty, false, none⟩ : StoreState).dbCache = none) ∧
    ((⟨.empty, none, 0⟩ : P2.StoreState).storage = .empty →
      (P2.readDB 7 ⟨.empty, none, 0⟩).1 = dbToRaw emptyDB) ∧
    ((⟨.empty, false, none⟩ : StoreState).storage = .empty →
      (readDB ⟨[⟨"m", "m", "", "A", "t"⟩], [], [], []⟩ ⟨.empty, false, none⟩).1
        = ⟨[⟨"m", "m", "", "A", "t"⟩], [], [], []⟩) :=
  ⟨rfl, rfl,
    (c8_load_corruption_handling 7 ⟨.empty, none, 0⟩ ⟨some [], none, none, none⟩
      ⟨[⟨"m", "m", "", "A", "t"⟩], [], [], []⟩ ⟨.empty, false, none⟩ rfl rfl).1,
    (c8_load_corruption_handling 7 ⟨.empty, none, 0⟩ ⟨some [], none, none, none⟩
      ⟨[⟨"m", "m", "", "A", "t"⟩], [], [], []⟩ ⟨.empty, false, none⟩ rfl rfl).2.2.2.1⟩

/-- C3: per-project aggregation groups Scores by judge and takes each
judge's weighted mean over only the criteria they submitted, normalized by
the submitted weights; on the spec scenario (two unit-weight criteria,
judge J scoring 8 and 6, judge K scoring only 10) judge J contributes 7,
judge K contributes 10, and the project aggregates to average 17/2 = 8.5
with evaluation count 2.  The backend's fixed five-criteria
`overall_score` formula (`calculateOverallScore`) coincides with the
judge-weighted mean over five unit-weight criteria, all submitted. -/
theorem c3_weighted_aggregation_scenario :
    CalcService.judgeWeightedMean
        [⟨"c1", "Innovation", 1⟩, ⟨"c2", "Technical", 1⟩]
        [⟨mkScoreId "P" "J" "c1", "P", "J", "c1", 8⟩,
         ⟨mkScoreId "P" "J" "c2", "P", "J", "c2", 6⟩] = some 7 ∧
    CalcService.judgeWeightedMean
        [⟨"c1", "Innovation", 1⟩, ⟨"c2", "Technical", 1⟩]
        [⟨mkScoreId "P" "K" "c1", "P", "K", "c1", 10⟩] = some 10 ∧
    CalcService.projectAggregate
        [⟨"c1", "Innovation", 1⟩, ⟨"c2", "Technical", 1⟩]
        [⟨mkScoreId "P" "J" "c1", "P", "J", "c1", 8⟩,
         ⟨mkScoreId "P" "J" "c2", "P", "J", "c2", 6⟩,
         ⟨mkScoreId "P" "K" "c1", "P", "K", "c1", 10⟩] "P" = some (17/2, 2) ∧
    (∀ a b c d e : ℚ,
      CalcService.judgeWeightedMean
        [⟨"c1", "x", 1⟩, ⟨"c2", "x", 1⟩, ⟨"c3", "x", 1⟩, ⟨"c4", "x", 1⟩, ⟨"c5", "x", 1⟩]
        [⟨"s1", "P", "J", "c1", a⟩, ⟨"s2", "P", "J", "c2", b⟩, ⟨"s3", "P", "J", "c3", c⟩,
         ⟨"s4", "P", "J", "c4", d⟩, ⟨"s5", "P", "J", "c5", e⟩]
        = some (calculateOverallScore a b c d e)) := by
  refine ⟨?_, ?_, ?_, ?_⟩
  · simp [CalcService.judgeWeightedMean, CalcService.criterionWeight, mkScoreId]
    norm_num
  · simp [CalcService.judgeWeightedMean, CalcService.criterionWeight, mkScoreId]
  · simp [CalcService.projectAggregate, CalcService.judgeWeightedMean,
      CalcService.criterionWeight, mkScoreId, List.dedup, List.pwFilter]
    norm_num
  · intro a b c d e
    simp [CalcService.judgeWeightedMean, CalcService.criterionWeight,
      calculateOverallScore]
    norm_num
    ring

theorem lbRowFor_eq_some (evals : List Backend.EvalRow) (p : Backend.BProject)
    (r : Backend.LBRow) (h : Backend.lbRowFor evals p = some r) :
    r.project = p ∧
    r.evaluationCount = (evals.filter (fun e => e.projectId = p.id)).length ∧
    1 ≤ r.evaluationCount := by
  unfold Backend.lbRowFor at h
  split at h
  · exact absurd h (by simp)
  · rename_i hlen
    injection h with h
    subst h
    exact ⟨rfl, rfl, Nat.one_le_iff_ne_zero.mpr hlen⟩

theorem lbRowFor_isSome_iff (evals : List Backend.EvalRow) (p : Backend.BProject) :
    (Backend.lbRowFor evals p).isSome = Backend.qualifies evals p := by
  unfold Backend.lbRowFor Backend.qualifies
  split <;> simp_all

theorem length_filterMap_lbRowFor (evals : List Backend.EvalRow)
    (ps : List Backend.BProject) :
    (ps.filterMap (Backend.lbRowFor evals)).length
      = (ps.filter (Backend.qualifies evals)).length := by
  induction ps with
  | nil => rfl
  | cons p ps ih =>
    rw [List.filterMap_cons, List.filter_cons]
    have hs := lbRowFor_isSome_iff evals p
    cases hq : Backend.lbRowFor evals p with
    | none =>
      rw [hq] at hs
      rw [← hs]
      simpa using ih
    | some r =>
      rw [hq] at hs
      rw [← hs]
      simpa using ih

theorem lbLe_trans (a b c : Backend.LBRow)
    (hab : Backend.lbLe a b) (hbc : Backend.lbLe b c) : Backend.lbLe a c := by
  simp only [Backend.lbLe, decide_eq_true_eq] at hab hbc ⊢
  rcases hab with h1 | ⟨h1, h2⟩ <;> rcases hbc with h3 | ⟨h3, h4⟩
  · exact Or.inl (h3.trans h1)
  · exact Or.inl (h3 ▸ h1)
  · exact Or.inl (h1 ▸ h3)
  · exact Or.inr ⟨h1.trans h3, le_trans h4 h2⟩

theorem lbLe_total (a b : Backend.LBRow) :
    Backend.lbLe a b || Backend.lbLe b a := by
  simp only [Backend.lbLe, Bool.or_eq_true, decide_eq_true_eq]
  rcases lt_trichotomy a.averageScore b.averageScore with h | h | h
  · exact Or.inr (Or.inl h)
  · rcases le_total b.evaluationCount a.evaluationCount with hc | hc
    · exact Or.inl (Or.inr ⟨h, hc⟩)
    · exact Or.inr (Or.inr ⟨h.symm, hc⟩)
  · exact Or.inl (Or.inl h)

/-- C4 (amended): every row of the ranked output belongs to a (track-matching)
project with at least one evaluation and carries its exact evaluation count;
a qualifying project always appears provided the qualifying projects fit in
the requested row limit (`LIMIT`, default 50, may truncate); and the output
is ordered by average score descending with ties broken by evaluation count
descending. -/
theorem c4_leaderboard_ranking (projects : List Backend.BProject)
    (evals : List Backend.EvalRow) (track : Option String) (lim : Nat) :
    (∀ r ∈ Backend.leaderboard projects evals track lim,
      1 ≤ r.evaluationCount ∧
      r.evaluationCount = (evals.filter (fun e => e.projectId = r.project.id)).length ∧
      r.project ∈ Backend.trackFiltered projects track) ∧
    (∀ p ∈ Backend.trackFiltered projects track, Backend.qualifies evals p = true →
      ((Backend.trackFiltered projects track).filter (Backend.qualifies evals)).length ≤ lim →
      ∃ r ∈ Backend.leaderboard projects evals track lim, r.project = p) ∧
    List.Pairwise (fun a b => Backend.lbLe a b = true)
      (Backend.leaderboard projects evals track lim) := by
  refine ⟨?_, ?_, ?_⟩
  · intro r hr
    have hr' : r ∈ ((Backend.trackFiltered projects track).filterMap
        (Backend.lbRowFor evals)).mergeSort Backend.lbLe :=
      List.take_subset lim _ hr
    rw [List.mem_mergeSort, List.mem_filterMap] at hr'
    obtain ⟨p, hp, hsome⟩ := hr'
    obtain ⟨h1, h2, h3⟩ := lbRowFor_eq_some evals p r hsome
    exact ⟨h3, by rw [h1, h2], by rw [h1]; exact hp⟩
  · intro p hp hq hlen
    have hsome : (Backend.lbRowFor evals p).isSome = true := by
      rw [lbRowFor_isSome_iff]; exact hq
    obtain ⟨r, hr⟩ := Option.isSome_iff_exists.mp hsome
    have hmem : r ∈ (Backend.trackFiltered projects track).filterMap
        (Backend.lbRowFor evals) :=
      List.mem_filterMap.mpr ⟨p, hp, hr⟩
    have hfit : (((Backend.trackFiltered projects track).filterMap
        (Backend.lbRowFor evals)).mergeSort Backend.lbLe).length ≤ lim := by
      rw [List.length_mergeSort, length_filterMap_lbRowFor]
      exact hlen
    refine ⟨r, ?_, (lbRowFor_eq_some evals p r hr).1⟩
    unfold Backend.leaderboard
    rw [List.take_of_length_le hfit, List.mem_mergeSort]
    exact hmem
  · exact List.Pairwise.sublist (List.take_sublist lim _)
      (List.sorted_mergeSort lbLe_trans lbLe_total _)

/-- Counterexample to C4 as stated: with two qualifying projects but a row
limit of 1, project "p2" has an evaluation yet is absent from the ranked
output. -/
theorem c4_leaderboard_counterexample :
    Backend.qualifies [⟨"p1", 5⟩, ⟨"p2", 4⟩] ⟨"p2", "b", "t", "A"⟩ = true ∧
    (Backend.leaderboard [⟨"p1", "a", "t", "A"⟩, ⟨"p2", "b", "t", "A"⟩]
        [⟨"p1", 5⟩, ⟨"p2", 4⟩] none 1).map (fun r => r.project)
      = [⟨"p1", "a", "t", "A"⟩] := by
  constructor
  · decide
  · simp [Backend.leaderboard, Backend.trackFiltered, Backend.lbRowFor, Backend.lbLe,
      List.mergeSort, List.merge]
    norm_num

/-- Witness for C4's amended statement: with limit 2 both qualifying projects
appear. -/
theorem c4_leaderboard_ranking_witness :
    ((⟨"p2", "b", "t", "A"⟩ : Backend.BProject) ∈
      Backend.trackFiltered [⟨"p1", "a", "t", "A"⟩, ⟨"p2", "b", "t", "A"⟩] none) ∧
    Backend.qualifies [⟨"p1", 5⟩, ⟨"p2", 4⟩] ⟨"p2", "b", "t", "A"⟩ = true ∧
    ((Backend.trackFiltered [⟨"p1", "a", "t", "A"⟩, ⟨"p2", "b", "t", "A"⟩] none).filter
      (Backend.qualifies [⟨"p1", 5⟩, ⟨"p2", 4⟩])).length ≤ 2 ∧
    ∃ r ∈ Backend.leaderboard [⟨"p1", "a", "t", "A"⟩, ⟨"p2", "b", "t", "A"⟩]
        [⟨"p1", 5⟩, ⟨"p2", 4⟩] none 2, r.project = ⟨"p2", "b", "t", "A"⟩ :=
  ⟨by decide, by decide, by decide,
    (c4_leaderboard_ranking [⟨"p1", "a", "t", "A"⟩, ⟨"p2", "b", "t", "A"⟩]
      [⟨"p1", 5⟩, ⟨"p2", 4⟩] none 2).2.1 ⟨"p2", "b", "t", "A"⟩ (by decide) (by decide)
      (by decide)⟩
